import Mathlib

/-!
Shallow embedding of the chess core in `atheris.py` (class `Board` and its
module-level helpers).  The Python board is a 3D list: `board[i][j]` is a
three-element list `[piece, moveflag, side]`; we model it as a function
`Fin 8 → Fin 8 → Tile`.  Coordinates in the Python code are plain ints that
may go negative (Python list indexing then wraps once: `xs[-1]` is the last
element), so all coordinates here are `Int` and `idx` reproduces Python's
indexing discipline.  Booleans: Python freely compares the int `0` stored in
empty squares with the bool `False` (they are equal), so the `side` field is
a `Bool` and empty squares carry `side = false`.

Stateful methods that provably restore the board (`check_king`, the blocker
simulation inside `is_checkmate`) are embedded as a state-passing version
faithful to the mutate-then-restore source (`check_king_run`) together with
the pure value it computes; the restoration theorem proved below justifies
using the pure value elsewhere.
-/

namespace Atheris

/-- One square of the board: the Python list `[piece, moveflag, side]`. -/
structure Tile where
  piece : Nat
  flag : Nat
  side : Bool
deriving DecidableEq, Repr

/-- The board, `board[i][j]` as a function of the two (wrapped) indices. -/
abbrev BoardA := Fin 8 → Fin 8 → Tile

/-- Python list-index resolution for an 8-element list: `0..7` is used as is,
`-8..-1` wraps by adding 8, anything else raises `IndexError` (never reached
by the code paths modelled here). -/
def idx (n : Int) : Option (Fin 8) :=
  if h : 0 ≤ n ∧ n < 8 then some ⟨n.toNat, by omega⟩
  else if h2 : -8 ≤ n ∧ n < 0 then some ⟨(n + 8).toNat, by omega⟩
  else none

/-- Read `board[i][j]` with Python indexing; the default tile stands in for
the `IndexError` case, which the modelled paths never hit. -/
def pyGet (b : BoardA) (i j : Int) : Tile :=
  match idx i, idx j with
  | some a, some c => b a c
  | _, _ => ⟨0, 0, false⟩

/-- Pointwise write at resolved indices. -/
def setF (b : BoardA) (a c : Fin 8) (t : Tile) : BoardA :=
  fun x y => if x = a ∧ y = c then t else b x y

/-- Write `board[i][j] = t` with Python indexing (no-op stands in for
`IndexError`, never reached by the modelled paths). -/
def pySet (b : BoardA) (i j : Int) (t : Tile) : BoardA :=
  match idx i, idx j with
  | some a, some c => setF b a c t
  | _, _ => b

/-- In-bounds predicate the Python code writes as `0 <= p[0] <= 7` etc. -/
def inBp (p : Int × Int) : Prop :=
  0 ≤ p.1 ∧ p.1 ≤ 7 ∧ 0 ≤ p.2 ∧ p.2 ≤ 7

instance (p : Int × Int) : Decidable (inBp p) := by
  unfold inBp; infer_instance

/-- Board.update: simulate a move from p1 to p2
(`board[p2] = [tile_1[0], 1, tile_1[2]]; board[p1] = [0, 1, 0]`). -/
def update (b : BoardA) (p1 p2 : Int × Int) : BoardA :=
  let tile_1 := pyGet b p1.1 p1.2
  pySet (pySet b p2.1 p2.2 ⟨tile_1.piece, 1, tile_1.side⟩) p1.1 p1.2 ⟨0, 1, false⟩

/-- The empty board (only used to build concrete positions). -/
def emptyB : BoardA := fun _ _ => ⟨0, 0, false⟩

/-- Place a tile on a concrete board (builder for test positions). -/
def place (b : BoardA) (i j : Fin 8) (t : Tile) : BoardA := setF b i j t

/-- Board.king_checks: the 8 king-adjacency offsets; keep squares holding an
enemy king. -/
def king_checks (b : BoardA) (p1 : Int × Int) (side : Bool) : List (Int × Int) :=
  ([(1, 1), (1, 0), (1, -1), (0, 1), (0, -1), (-1, 1), (-1, 0), (-1, -1)] :
      List (Int × Int)).filterMap fun d =>
    let p2 := (p1.1 + d.1, p1.2 + d.2)
    if ¬ inBp p2 then none
    else
      let tile := pyGet b p2.1 p2.2
      if tile.piece ≠ 6 ∨ tile.side = side then none else some p2

/-- Board.pawn_checks: the two pawn-capture offsets relative to the side being
checked; keep squares holding an enemy pawn. -/
def pawn_checks (b : BoardA) (p1 : Int × Int) (side : Bool) : List (Int × Int) :=
  let direct : Int := if side then 1 else -1
  ([-1, 1] : List Int).filterMap fun i =>
    let p2 := (p1.1 + direct, p1.2 + i)
    if ¬ inBp p2 then none
    else
      let tile := pyGet b p2.1 p2.2
      if tile.piece ≠ 1 ∨ tile.side = side then none else some p2

/-- Board.knight_checks: the 8 knight offsets; keep squares holding an enemy
knight (the empty-square `continue` is subsumed: an empty tile has piece 0). -/
def knight_checks (b : BoardA) (p1 : Int × Int) (side : Bool) : List (Int × Int) :=
  ([(1, 2), (1, -2), (-1, 2), (-1, -2), (2, 1), (2, -1), (-2, 1), (-2, -1)] :
      List (Int × Int)).filterMap fun d =>
    let p2 := (p1.1 + d.1, p1.2 + d.2)
    if ¬ inBp p2 then none
    else
      let tile := pyGet b p2.1 p2.2
      if tile.piece = 0 then none
      else if tile.side = side ∨ tile.piece ≠ 2 then none else some p2

/-- One ray of Board.ray_checks: walk outward along direction `d` over the
remaining step counts; stop at the board edge or at the first occupied
square, which is reported only if it is an enemy slider of kind `x` or a
queen. -/
def ray_check_dir (b : BoardA) (p1 : Int × Int) (side : Bool) (x : Nat)
    (d : Int × Int) : List Nat → List (Int × Int)
  | [] => []
  | i :: rest =>
    let p2 := (p1.1 + d.1 * (i : Int), p1.2 + d.2 * (i : Int))
    if ¬ inBp p2 then []
    else
      let tile := pyGet b p2.1 p2.2
      if tile.piece = 0 then ray_check_dir b p1 side x d rest
      else if tile.side = side ∨ (tile.piece ≠ x ∧ tile.piece ≠ 5) then []
      else [p2]

/-- Board.ray_checks: diagonal rays test for bishop (3) or queen (5),
cardinal rays for rook (4) or queen (5). -/
def ray_checks (b : BoardA) (p1 : Int × Int) (side : Bool) : List (Int × Int) :=
  (([(1, 1), (-1, 1), (1, -1), (-1, -1)] : List (Int × Int)).foldr
    (fun d acc => ray_check_dir b p1 side 3 d (List.range' 1 7) ++ acc) []) ++
  (([(0, 1), (1, 0), (0, -1), (-1, 0)] : List (Int × Int)).foldr
    (fun d acc => ray_check_dir b p1 side 4 d (List.range' 1 7) ++ acc) [])

/-- Board.fetch_attackers: union (in source order) of the four sub-detectors. -/
def fetch_attackers (b : BoardA) (p1 : Int × Int) (side : Bool) : List (Int × Int) :=
  king_checks b p1 side ++ pawn_checks b p1 side ++
  knight_checks b p1 side ++ ray_checks b p1 side

/-- Board.check_king, state-passing form: snapshot both squares, apply the
move with `update`, query the attack detector against `k1`, then write the
snapshots back; returns the flag together with the final board (the source's
debug prints are pure output and are omitted). -/
def check_king_run (b : BoardA) (k1 p1 p2 : Int × Int) (side : Bool) :
    Bool × BoardA :=
  let tile_1 := pyGet b p1.1 p1.2
  let tile_2 := pyGet b p2.1 p2.2
  let stored := (tile_1.piece, tile_1.flag, tile_1.side,
                 tile_2.piece, tile_2.flag, tile_2.side)
  let b1 := update b p1 p2
  let in_check := fetch_attackers b1 k1 side ≠ []
  let b2 := pySet b1 p1.1 p1.2 ⟨stored.1, stored.2.1, stored.2.2.1⟩
  let b3 := pySet b2 p2.1 p2.2 ⟨stored.2.2.2.1, stored.2.2.2.2.1, stored.2.2.2.2.2⟩
  (in_check, b3)

/-- Board.check_king's return value; the restoration theorem below shows the
call leaves the board unchanged, so the generators below may use this pure
form. -/
def check_king (b : BoardA) (k1 p1 p2 : Int × Int) (side : Bool) : Bool :=
  (check_king_run b k1 p1 p2 side).1

/-- Python's `==` between a list and an int: never equal, regardless of the
values.  Board.gen_castling_moves compares the tile list `self.board[i][rook_i]`
(not its `[0]` entry) against the int `rook`, which is this comparison. -/
def tileEqInt (_t : Tile) (_n : Nat) : Bool := false

/-- Board.gen_castling_moves.  The source's `for long in (0, 1)` loop is
unrolled: the queenside values assigned before the loop are dead (the first
iteration, `long = 0`, overwrites them before any use), and the second
iteration (`long = 1`) does not reassign them, so both iterations test the
kingside squares; the `long = 1` iteration merely appends `(i, 2)` instead of
`(i, 6)`. -/
def gen_castling_moves (b : BoardA) (_p1 : Int × Int) (kr_side : Bool) :
    List (Int × Int) :=
  let i : Int := if kr_side then 0 else 7
  let rook : Nat := 4
  let king : Nat := 6
  -- dead initial assignments: king_j = 2, rook_i = 0, rook_j = 3,
  -- extra = board[0][1][0] == 0 (note: row 0 regardless of side)
  let king_j : Int := 6
  let rook_i : Int := 7
  let rook_j : Int := 5
  let extra := true
  let king_legal := (pyGet b i 4).piece = king ∧ (pyGet b i 4).flag = 0
  let rook_legal := tileEqInt (pyGet b i rook_i) rook = true ∧ (pyGet b i rook_i).flag = 0
  let check : Prop :=
    fetch_attackers b (i, 4) kr_side = [] ∧
    fetch_attackers b (i, king_j) kr_side = [] ∧
    fetch_attackers b (i, rook_j) kr_side = [] ∧
    (pyGet b i rook_j).piece = 0 ∧
    (pyGet b i king_j).piece = 0 ∧
    extra = true ∧ king_legal ∧ rook_legal
  let out0 := if check then [(i, (6 : Int))] else []
  let out1 := if check then out0 ++ [(i, (2 : Int))] else out0
  out1

/-- Board.gen_knight_moves: 8 fixed jumps, skipping out-of-board squares,
same-side occupancy, and moves failing the legality filter. -/
def gen_knight_moves (b : BoardA) (p1 k1 : Int × Int) (piece_side : Bool) :
    List (Int × Int) :=
  ([(1, 2), (1, -2), (-1, 2), (-1, -2), (2, 1), (2, -1), (-2, 1), (-2, -1)] :
      List (Int × Int)).filterMap fun d =>
    let p2 := (p1.1 + d.1, p1.2 + d.2)
    if ¬ inBp p2 then none
    else
      let tile := pyGet b p2.1 p2.2
      if (tile.piece ≠ 0 ∧ tile.side = piece_side) ∨
          check_king b k1 p1 p2 piece_side = true then none
      else some p2

/-- Board.gen_king_moves: 8 adjacent offsets; the legality filter is called
with the destination `p2` as the king square to test. -/
def gen_king_moves (b : BoardA) (p1 _k1 : Int × Int) (piece_side : Bool) :
    List (Int × Int) :=
  ([(1, 1), (1, 0), (1, -1), (0, 1), (0, -1), (-1, 1), (-1, 0), (-1, -1)] :
      List (Int × Int)).filterMap fun d =>
    let p2 := (p1.1 + d.1, p1.2 + d.2)
    if ¬ inBp p2 then none
    else
      let tile := pyGet b p2.1 p2.2
      if (tile.piece ≠ 0 ∧ tile.side = piece_side) ∨
          check_king b p2 p1 p2 piece_side = true then none
      else some p2

/-- Forward-push loop of Board.gen_pawn_moves over the distances `(1, 2)`:
break at the board edge, at an occupied square, and on a double push not from
row 1 or 6; surviving pushes are kept when the legality filter passes. -/
def pawn_fwd (b : BoardA) (p1 k1 : Int × Int) (piece_side : Bool)
    (direct : Int) : List Int → List (Int × Int)
  | [] => []
  | dist :: rest =>
    let row_i := p1.1 + dist * direct
    if ¬ (0 ≤ row_i ∧ row_i ≤ 7) then []
    else
      let tile := pyGet b row_i p1.2
      if tile.piece ≠ 0 ∨ (dist = 2 ∧ ¬ (p1.1 = 1 ∨ p1.1 = 6)) then []
      else if check_king b k1 p1 (row_i, p1.2) piece_side = false then
        (row_i, p1.2) :: pawn_fwd b p1 k1 piece_side direct rest
      else pawn_fwd b p1 k1 piece_side direct rest

/-- Board.gen_pawn_moves: forward pushes, then the diagonal loop, which keeps
a destination exactly when it is occupied by a piece of the pawn's own side
(`tile[0] == 0 or tile[2] != piece_side` skips everything else) and never
consults the legality filter. -/
def gen_pawn_moves (b : BoardA) (p1 k1 : Int × Int) (piece_side : Bool) :
    List (Int × Int) :=
  let direct : Int := if piece_side then 1 else -1
  pawn_fwd b p1 k1 piece_side direct [1, 2] ++
  (([-1, 1] : List Int).filterMap fun i =>
    let p2 := (p1.1 + direct, p1.2 + i)
    if ¬ inBp p2 then none
    else
      let tile := pyGet b p2.1 p2.2
      if tile.piece = 0 ∨ tile.side ≠ piece_side then none
      else some p2)

/-- Board.gen_passant.  The destination row is the Python conditional
`p1[0] + 1 if piece_side else -1`, i.e. `(p1[0] + 1) if piece_side else (-1)`:
for black the whole row is the literal `-1`.  Inside the `some` branch the
source's re-test `self.last_move is None` is always false and is dropped. -/
def gen_passant (b : BoardA) (last_move : Option ((Int × Int) × (Int × Int)))
    (p1 k1 : Int × Int) (piece_side : Bool) : List (Int × Int) :=
  match last_move with
  | none => []
  | some lm =>
    let p2 : Int × Int := (if piece_side then p1.1 + 1 else -1, lm.2.2)
    if (piece_side = true ∧ p1.1 ≠ 4) ∨ (piece_side = false ∧ p1.1 ≠ 3) ∨
        ¬ (lm.2.2 - p1.2).natAbs = 1 ∨ ¬ (lm.1.1 - lm.2.1).natAbs = 2 ∨
        check_king b k1 p1 p2 piece_side = true then []
    else [p2]

/-- One direction of Board.gen_ray_moves: out-of-board steps `continue` (the
walk is monotone, so this behaves like a break), same-side occupancy or a
failing legality filter breaks, an empty destination is kept and the walk
continues, an enemy-occupied destination is kept and the walk breaks. -/
def ray_move_dir (b : BoardA) (p1 k1 : Int × Int) (piece_side : Bool)
    (d : Int × Int) : List Nat → List (Int × Int)
  | [] => []
  | i :: rest =>
    let p2 := (p1.1 + (i : Int) * d.1, p1.2 + (i : Int) * d.2)
    if ¬ inBp p2 then ray_move_dir b p1 k1 piece_side d rest
    else
      let tile := pyGet b p2.1 p2.2
      if (tile.piece ≠ 0 ∧ tile.side = piece_side) ∨
          check_king b k1 p1 p2 piece_side = true then []
      else
        p2 :: (if tile.piece = 0 then ray_move_dir b p1 k1 piece_side d rest
               else if tile.side ≠ piece_side then []
               else ray_move_dir b p1 k1 piece_side d rest)

/-- Board.gen_ray_moves: the direction set selected by `toggle`
(diagonals-only, cardinals-only, or all eight). -/
def gen_ray_moves (b : BoardA) (p1 k1 : Int × Int) (piece_side : Bool)
    (toggle : Bool × Bool) : List (Int × Int) :=
  let comp : List (Int × Int) :=
    if toggle.1 ∧ ¬ toggle.2 then [(1, 1), (-1, -1), (-1, 1), (1, -1)]
    else if ¬ toggle.1 ∧ toggle.2 then [(0, 1), (1, 0), (0, -1), (-1, 0)]
    else [(1, 1), (-1, -1), (-1, 1), (1, -1), (0, 1), (1, 0), (0, -1), (-1, 0)]
  comp.foldr (fun d acc => ray_move_dir b p1 k1 piece_side d (List.range' 1 7) ++ acc) []

/-- Board.gen_queen_moves. -/
def gen_queen_moves (b : BoardA) (p1 k1 : Int × Int) (piece_side : Bool) :
    List (Int × Int) :=
  gen_ray_moves b p1 k1 piece_side (true, true)

/-- Board.gen_bishop_moves. -/
def gen_bishop_moves (b : BoardA) (p1 k1 : Int × Int) (piece_side : Bool) :
    List (Int × Int) :=
  gen_ray_moves b p1 k1 piece_side (true, false)

/-- Board.gen_rook_moves. -/
def gen_rook_moves (b : BoardA) (p1 k1 : Int × Int) (piece_side : Bool) :
    List (Int × Int) :=
  gen_ray_moves b p1 k1 piece_side (false, true)

/-- Board.gen_all_king_moves: plain king moves then castling moves. -/
def gen_all_king_moves (b : BoardA) (p1 k1 : Int × Int) (piece_side : Bool) :
    List (Int × Int) :=
  gen_king_moves b p1 k1 piece_side ++ gen_castling_moves b p1 piece_side

/-- Board.gen_all_pawn_moves: plain pawn moves then en passant. -/
def gen_all_pawn_moves (b : BoardA) (last_move : Option ((Int × Int) × (Int × Int)))
    (p1 k1 : Int × Int) (piece_side : Bool) : List (Int × Int) :=
  gen_pawn_moves b p1 k1 piece_side ++ gen_passant b last_move p1 k1 piece_side

/-- All 64 squares in the source's row-major iteration order
(`for i in range(8): for j in range(8)`). -/
def allSquares : List (Int × Int) :=
  (List.range 8).foldr (fun i acc =>
    ((List.range 8).map fun j => ((i : Int), (j : Int))) ++ acc) []

/-- Board.find_king: first square (row-major) holding a king of `side`;
`(0, 0)` if absent. -/
def find_king (b : BoardA) (side : Bool) : Int × Int :=
  match allSquares.find? (fun p =>
      (pyGet b p.1 p.2).piece = 6 && (pyGet b p.1 p.2).side = side) with
  | some p => p
  | none => (0, 0)

/-- Board.fetch_moves: dispatch through `_move_functions[tile[0] - 1]`
(piece 0 yields no moves; `find_king` never returns `None`, so the source's
`k1 is not None` guard is vacuous). -/
def fetch_moves (b : BoardA) (last_move : Option ((Int × Int) × (Int × Int)))
    (p1 : Int × Int) : List (Int × Int) :=
  let tile := pyGet b p1.1 p1.2
  let k1 := find_king b tile.side
  match tile.piece with
  | 1 => gen_all_pawn_moves b last_move p1 k1 tile.side
  | 2 => gen_knight_moves b p1 k1 tile.side
  | 3 => gen_bishop_moves b p1 k1 tile.side
  | 4 => gen_rook_moves b p1 k1 tile.side
  | 5 => gen_queen_moves b p1 k1 tile.side
  | 6 => gen_all_king_moves b p1 k1 tile.side
  | _ => []

/-- Board.fetch_blockers: the direction vector is the sign of `a1 - k1`
(pointing away from the king), the two sequential `if`s on the diffs give the
distance (the second overwrites the first when both apply), and for every step
`1 .. dist-1` every piece attacking that square is paired with it. -/
def fetch_blockers (b : BoardA) (a1 k1 : Int × Int) (side : Bool) :
    List ((Int × Int) × (Int × Int)) :=
  let row_diff := a1.1 - k1.1
  let col_diff := a1.2 - k1.2
  let dist0 : Nat := 0
  let dist1 := if col_diff = 0 ∨ row_diff = 0 then row_diff.natAbs + col_diff.natAbs else dist0
  let dist := if col_diff.natAbs = row_diff.natAbs then row_diff.natAbs else dist1
  let col_dir : Int := if col_diff > 0 then 1 else if col_diff < 0 then -1 else 0
  let row_dir : Int := if row_diff > 0 then 1 else if row_diff < 0 then -1 else 0
  (List.range' 1 (dist - 1)).foldr (fun mv acc =>
    let m1 := (a1.1 + (mv : Int) * row_dir, a1.2 + (mv : Int) * col_dir)
    ((fetch_attackers b m1 (!side)).map fun coord => (coord, m1)) ++ acc) []

/-- Board.is_checkmate.  The capture loop returns False as soon as some
attacker of `a1` is not a king, or is a king while `a1` has no counter-
attackers; the blocker loop simulates each candidate block with the same
snapshot/update/restore pattern as `check_king` (restoration is proved for
that pattern below), so each iteration tests the attack detector on
`update b b1 b2` against the original board. -/
def is_checkmate (b : BoardA) (last_move : Option ((Int × Int) × (Int × Int)))
    (a1 k1 : Int × Int) (side : Bool) : Bool :=
  let tile_1 := pyGet b k1.1 k1.2
  let tile_2 := pyGet b a1.1 a1.2
  if tile_1.piece ≠ 6 ∨ tile_2.side = tile_1.side ∨ fetch_moves b last_move k1 ≠ [] then
    false
  else if (fetch_attackers b a1 side).any (fun a2 =>
      (pyGet b a2.1 a2.2).piece ≠ 6 ∨ fetch_attackers b a1 (!side) = []) then
    false
  else if tile_2.piece = 2 then true
  else if (fetch_blockers b a1 k1 (!side)).any (fun bl =>
      inBp bl.1 ∧ inBp bl.2 ∧ fetch_attackers (update b bl.1 bl.2) k1 side = []) then
    false
  else true

/-- Loop of Board.is_stalemate: `ws`/`bs` start True, a non-empty move list
for a white (resp. black) piece clears the matching flag, and as soon as both
are cleared the loop exits with False; an exhausted loop returns True. -/
def stalemate_go (b : BoardA) (last_move : Option ((Int × Int) × (Int × Int))) :
    List (Int × Int) → Bool → Bool → Bool
  | [], _, _ => true
  | p :: rest, ws, bs =>
    let tile := pyGet b p.1 p.2
    if tile.piece = 0 then stalemate_go b last_move rest ws bs
    else
      let moves := fetch_moves b last_move p
      let ws2 := if moves.length > 0 ∧ tile.side = true then false else ws
      let bs2 := if moves.length > 0 ∧ tile.side = false then false else bs
      if ws2 = false ∧ bs2 = false then false
      else stalemate_go b last_move rest ws2 bs2

/-- Board.is_stalemate. -/
def is_stalemate (b : BoardA)
    (last_move : Option ((Int × Int) × (Int × Int))) : Bool :=
  stalemate_go b last_move allSquares true true

/-- display_int_alpha: algebraic letter of a piece (blank for piece 0). -/
def display_int_alpha (piece : Nat) (side : Bool) : String :=
  if side then String.mk [" PNBRQK".toList.getD piece ' ']
  else String.mk [" pnbrqk".toList.getD piece ' ']

/-- Row step of fen_from_array: emit any pending blank count before a piece
letter, count blanks, and flush the pending count at the row's end. -/
def fen_row_go : List Tile → Nat → List String
  | [], blanks => if blanks > 0 then [toString blanks] else []
  | t :: rest, blanks =>
    if 1 ≤ t.piece ∧ t.piece ≤ 6 then
      (if blanks > 0 then [toString blanks] else []) ++
      [display_int_alpha t.piece t.side] ++ fen_row_go rest 0
    else if t.piece = 0 then fen_row_go rest (blanks + 1)
    else fen_row_go rest blanks

/-- The tiles of row `i` in column order. -/
def rowTiles (b : BoardA) (i : Fin 8) : List Tile :=
  (List.finRange 8).map fun j => b i j

/-- fen_from_array: rows from 7 down to 0 (`boardstate[-1] .. boardstate[-8]`),
each followed by `/`, then the side-to-move marker. -/
def fen_from_array (b : BoardA) (side : Bool) : String :=
  let body := ((List.finRange 8).reverse).foldl (fun acc i =>
    acc ++ fen_row_go (rowTiles b i) 0 ++ ["/"]) []
  (body ++ [if side then " w " else " b "]).foldl (fun s t => s ++ t) ""

/-- The mutable fields of the Python Board object used by the embedded
methods (`half_moves` is only displayed and is omitted; `_tables` is passed
to `evaluate` explicitly since the piece-square file is an external
resource). -/
structure GameState where
  board : BoardA
  turn : Bool
  past_states : List String
  result : Option String
  coord_input : Option ((Int × Int) × (Int × Int))
  last_move : Option ((Int × Int) × (Int × Int))

/-- Repetition count computed by Board.is_threefold: occurrences of the
current position signature among `past_states`. -/
def threefold_repetitions (st : GameState) : Nat :=
  let current := fen_from_array st.board st.turn
  (st.past_states.filter fun s => s = current).length

/-- Board.is_threefold: the repetition count is computed and compared with 2,
but the outcome is bound to a local variable `result` (not `self.result`) and
the method returns `None` on every path. -/
def is_threefold (st : GameState) : Option String :=
  let repetitions := threefold_repetitions st
  let result : Option String := if repetitions ≥ 2 then some "Threefold" else none
  none

/-- Python str.strip over the ASCII fragment relevant here: drop whitespace
from both ends. -/
def pyStrip (s : String) : String :=
  String.mk (((s.toList.dropWhile Char.isWhitespace).reverse.dropWhile
    Char.isWhitespace).reverse)

/-- Python str.lower over the ASCII fragment relevant here. -/
def pyLower (s : String) : String :=
  String.mk (s.toList.map Char.toLower)

/-- col_dict lookup: file letter to column, `None` for a non-member (the
`in col_dict` test is `isSome` of this). -/
def col_dict (c : Char) : Option Int :=
  if c = 'a' then some 0 else if c = 'b' then some 1
  else if c = 'c' then some 2 else if c = 'd' then some 3
  else if c = 'e' then some 4 else if c = 'f' then some 5
  else if c = 'g' then some 6 else if c = 'h' then some 7
  else none

/-- Value of `int(move[k])` for a single ASCII digit character (a non-digit
raises `ValueError`, modelled by the caller's rejection branch). -/
def digitVal (c : Char) : Nat := c.toNat - '0'.toNat

/-- piece_dict restricted to the promotion letters. -/
def piece_dict_promo (s : String) : Nat :=
  if s = "q" then 5 else if s = "n" then 2 else if s = "b" then 3
  else if s = "r" then 4 else 0

/-- Board.set_input.  The match on the first four characters models the
`try`/`except (IndexError, ValueError)` wrapper: a string shorter than 4
raises an IndexError while the tuple passed to `all` is built, and a
non-digit rank raises a ValueError, both landing in the `return False` path
with no state change.  Non-ASCII digit forms are outside the model. -/
def set_input (move0 : String) (st : GameState) : Bool × GameState :=
  let move := pyLower (pyStrip move0)
  if move = "resign" then
    (true, { st with
      result := some ((if st.turn then "White" else "Black") ++ " resigned."),
      coord_input := none })
  else
    match move.toList with
    | c0 :: c1 :: c2 :: c3 :: rest =>
      if c1.isDigit ∧ c3.isDigit then
        if (c0 :: c1 :: c2 :: c3 :: rest).length = 4 ∧
            (col_dict c0).isSome ∧ (col_dict c2).isSome ∧
            (1 ≤ digitVal c1 ∧ digitVal c1 ≤ 8) ∧
            (1 ≤ digitVal c3 ∧ digitVal c3 ≤ 8) then
          let coords : (Int × Int) × (Int × Int) :=
            (((digitVal c1 : Int) - 1, (col_dict c0).getD 0),
             ((digitVal c3 : Int) - 1, (col_dict c2).getD 0))
          let piece_color := (pyGet st.board coords.1.1 coords.1.2).side
          if piece_color = st.turn ∧ st.result = none then
            (true, { st with coord_input := some coords })
          else (false, st)
        else (false, st)
      else (false, st)
    | _ => (false, st)

/-- Mutation phase of Board.move_piece, named so the whole-method theorems
can treat it as one step: promotion or normal piece write at `p2` (through
the `tile_2` alias), the castling rook relocation, the `tile_2[1:3]` slice
assignment, and the clearing of `p1`.  `promo` supplies the external
promotion prompt. -/
def move_piece_board (promo : String) (st : GameState) (p1 p2 : Int × Int) : BoardA :=
  let tile_1 := pyGet st.board p1.1 p1.2
  let tile_2 := pyGet st.board p2.1 p2.2
  let b1 :=
    if tile_1.piece = 1 ∧
        ((st.turn = true ∧ p2.1 = 7) ∨ (st.turn = false ∧ p2.1 = 0)) then
      let promotion := if promo = "q" ∨ promo = "n" ∨ promo = "b" ∨ promo = "r"
        then promo else "q"
      pySet st.board p2.1 p2.2 ⟨piece_dict_promo promotion, tile_2.flag, tile_2.side⟩
    else
      pySet st.board p2.1 p2.2 ⟨tile_1.piece, tile_2.flag, tile_2.side⟩
  let b2 :=
    if tile_1.piece = 6 ∧ p1.2 = 4 ∧ (p2.2 = 2 ∨ p2.2 = 6) then
      if st.turn then
        let bb := if p2.2 = 6 then
          pySet (pySet b1 0 7 ⟨0, 1, false⟩) 0 5 ⟨4, 1, true⟩ else b1
        if p2.2 = 2 then
          pySet (pySet bb 0 0 ⟨0, 1, false⟩) 0 3 ⟨4, 1, true⟩ else bb
      else
        let bb := if p2.2 = 6 then
          pySet (pySet b1 7 7 ⟨0, 1, false⟩) 7 5 ⟨4, 1, false⟩ else b1
        if p2.2 = 2 then
          pySet (pySet bb 7 0 ⟨0, 1, false⟩) 7 3 ⟨4, 1, false⟩ else bb
    else b1
  let b3 := pySet b2 p2.1 p2.2 ⟨(pyGet b2 p2.1 p2.2).piece, 1, tile_1.side⟩
  pySet b3 p1.1 p1.2 ⟨0, 1, false⟩

/-- Board.move_piece.  `backup` is the deep copy used by the rejection
branch.  The dead `k1`/`attacker` locals of the source are dropped; a `None`
`coord_input` would raise in Python and is mapped to plain rejection
(execute_input never calls with it unset). -/
def move_piece (promo : String) (st : GameState) : Bool × GameState :=
  match st.coord_input with
  | none => (false, st)
  | some cds =>
    let p1 := cds.1
    let p2 := cds.2
    let tile_1 := pyGet st.board p1.1 p1.2
    let backup := (st.board, st.turn, st.last_move)
    if tile_1.side ≠ st.turn then (false, st)
    else
      let b4 := move_piece_board promo st p1 p2
      if fetch_attackers b4 (find_king b4 st.turn) st.turn ≠ [] ∨ st.result ≠ none then
        (false, { st with board := backup.1, turn := backup.2.1, last_move := backup.2.2 })
      else
        let k2 := find_king b4 (!st.turn)
        let res1 :=
          if (fetch_attackers b4 k2 (!st.turn)).any (fun a1 =>
              is_checkmate b4 st.last_move a1 k2 (!st.turn)) then
            some "checkmate_white"
          else st.result
        let res2 := if res1 = none ∧ is_stalemate b4 st.last_move = true then
          some "stalemate" else res1
        let res3 := if res2 = none ∧
            (is_threefold { st with board := b4, result := res2 }).isSome then
          some "threefold" else res2
        (true, { st with board := b4, result := res3 })

/-- Board.execute_input: `None` input or a destination outside the legal set
returns False; otherwise move_piece runs and, on success, the turn flips (the
method then falls off the end, returning `None`, modelled by `none`). -/
def execute_input (promo : String) (st : GameState) : Option Bool × GameState :=
  match st.coord_input with
  | none => (some false, st)
  | some cds =>
    if cds.2 ∉ fetch_moves st.board st.last_move cds.1 then (some false, st)
    else
      let r := move_piece promo st
      if r.1 then (none, { r.2 with turn := !r.2.turn }) else (none, r.2)

/-- Material values paired with the six piece tables in `Board.__init__`. -/
def materials : List Int := [100, 320, 330, 500, 900, 0]

/-- Loop of Board.evaluate over the remaining squares.  `pst k x y` is the
entry `table[x][y]` of the k-th piece table (the on-disk resource, passed as
a parameter).  A king whose square has an attacker proving checkmate
short-circuits the whole evaluation to `100000 if tile[2] else -100000`. -/
def eval_go (pst : Nat → Nat → Nat → Int) (b : BoardA)
    (last_move : Option ((Int × Int) × (Int × Int))) :
    List (Int × Int) → Int → Int
  | [], score => score
  | p :: rest, score =>
    let tile := pyGet b p.1 p.2
    if tile.piece = 0 then eval_go pst b last_move rest score
    else if tile.piece = 6 ∧ (fetch_attackers b p tile.side).any (fun a1 =>
        is_checkmate b last_move a1 p tile.side) then
      if tile.side then 100000 else -100000
    else
      let xy : Int × Int := if tile.side then (7 - p.1, p.2) else (p.1, p.2)
      let count := pst (tile.piece - 1) xy.1.toNat xy.2.toNat +
        materials.getD (tile.piece - 1) 0
      eval_go pst b last_move rest (if tile.side then score + count else score - count)

/-- Board.evaluate with the piece-square tables supplied as `pst`. -/
def evaluate (pst : Nat → Nat → Nat → Int) (b : BoardA)
    (last_move : Option ((Int × Int) × (Int × Int))) : Int :=
  eval_go pst b last_move allSquares 0

/-- Absence of legal moves for `side` over the squares of `l`: the property
Board.is_stalemate's flags track for each colour. -/
def noMovesIn (b : BoardA) (last_move : Option ((Int × Int) × (Int × Int)))
    (l : List (Int × Int)) (side : Bool) : Prop :=
  ∀ p ∈ l, (pyGet b p.1 p.2).piece ≠ 0 → (pyGet b p.1 p.2).side = side →
    fetch_moves b last_move p = []

/-- Test position: white king e1, white pawn e2, white knight d3, black rook
e8, black king a8.  The pawn's diagonal-capture loop accepts d3 (its own
knight) and skips the legality filter. -/
def bP : BoardA :=
  place (place (place (place (place emptyB 0 4 ⟨6, 0, true⟩) 1 4 ⟨1, 0, true⟩)
    2 3 ⟨2, 0, true⟩) 7 4 ⟨4, 0, false⟩) 7 0 ⟨6, 0, false⟩

/-- Test position: white king e1 and rook h1 unmoved, f1/g1 empty, nothing
attacking e1/f1/g1 — a castling-ready position. -/
def bCastle : BoardA :=
  place (place (place emptyB 0 4 ⟨6, 0, true⟩) 0 7 ⟨4, 0, true⟩) 7 0 ⟨6, 0, false⟩

/-- Test position: white king a1 boxed in by its own pawns a2/b2, black rook
h1 delivering a back-rank mate, black king h8. -/
def bMate : BoardA :=
  place (place (place (place (place emptyB 0 0 ⟨6, 0, true⟩) 1 0 ⟨1, 0, true⟩)
    1 1 ⟨1, 0, true⟩) 0 7 ⟨4, 0, false⟩) 7 7 ⟨6, 0, false⟩

/-- Test position for the threefold scenario: white king a1, black king h8,
white rook d4 about to play d4-e4. -/
def bT4 : BoardA :=
  place (place (place emptyB 0 0 ⟨6, 0, true⟩) 7 7 ⟨6, 0, false⟩) 3 3 ⟨4, 0, true⟩

/-- Game state whose history already holds the post-move signature twice, with
the rook move d4-e4 queued as input. -/
def st4 : GameState :=
  { board := bT4, turn := true,
    past_states := [fen_from_array (update bT4 (3, 3) (3, 4)) true,
                    fen_from_array (update bT4 (3, 3) (3, 4)) true],
    result := none, coord_input := some ((3, 3), (3, 4)), last_move := none }

/-- Test position: a lone white king (the side to move), which has legal
moves while black has no pieces at all. -/
def bC5 : BoardA := place emptyB 0 0 ⟨6, 0, true⟩

/-- Test position: white pawn e5 beside a black knight f6 that has just
arrived from g8 (a two-row knight move, not a pawn double push). -/
def bEP : BoardA :=
  place (place (place (place emptyB 4 4 ⟨1, 0, true⟩) 5 5 ⟨2, 0, false⟩)
    0 4 ⟨6, 0, true⟩) 7 4 ⟨6, 0, false⟩

/-- Test position: black pawn e4 beside a white pawn f4 that has just double
pushed from f2, i.e. a position where black en passant should be available. -/
def bEP10 : BoardA :=
  place (place (place (place emptyB 3 4 ⟨1, 0, false⟩) 3 5 ⟨1, 0, true⟩)
    7 0 ⟨6, 0, false⟩) 0 0 ⟨6, 0, true⟩

/-- Game state with black to move on an empty board and no result. -/
def stC7 : GameState :=
  { board := emptyB, turn := false, past_states := [], result := none,
    coord_input := none, last_move := none }

/-- Terminal game state: a result is already recorded. -/
def stC6 : GameState :=
  { board := emptyB, turn := true, past_states := [], result := some "stalemate",
    coord_input := none, last_move := none }

/-! Shared helper lemmas. -/

/-- Index resolution for an in-range coordinate. -/
theorem idx_pos (n : Int) (h0 : 0 ≤ n) (h8 : n < 8) :
    idx n = some ⟨n.toNat, by omega⟩ := by
  unfold idx
  rw [dif_pos ⟨h0, h8⟩]

/-- Invariant of Board.is_stalemate's scanning loop: starting from flags not
both cleared, the loop accepts exactly when each still-set flag's colour has
no legal move among the remaining squares. -/
theorem stalemate_go_spec (b : BoardA) (lm : Option ((Int × Int) × (Int × Int))) :
    ∀ (l : List (Int × Int)) (ws bs : Bool), ws = true ∨ bs = true →
    (stalemate_go b lm l ws bs = true ↔
      (ws = true ∧ noMovesIn b lm l true) ∨ (bs = true ∧ noMovesIn b lm l false)) := by
  intro l
  induction l with
  | nil =>
    intro ws bs h
    simpa [stalemate_go, noMovesIn] using h
  | cons p rest ih =>
    intro ws bs h
    by_cases hp : (pyGet b p.1 p.2).piece = 0
    · rw [show stalemate_go b lm (p :: rest) ws bs = stalemate_go b lm rest ws bs by
        simp [stalemate_go, hp], ih ws bs h]
      simp [noMovesIn, List.forall_mem_cons, hp]
    · by_cases hm : fetch_moves b lm p = []
      · rcases h with hw | hb
        · subst hw
          rw [show stalemate_go b lm (p :: rest) true bs = stalemate_go b lm rest true bs by
            simp [stalemate_go, hp, hm], ih true bs (Or.inl rfl)]
          simp [noMovesIn, List.forall_mem_cons, hm]
        · subst hb
          rw [show stalemate_go b lm (p :: rest) ws true = stalemate_go b lm rest ws true by
            simp [stalemate_go, hp, hm], ih ws true (Or.inr rfl)]
          simp [noMovesIn, List.forall_mem_cons, hm]
      · have hlen : (fetch_moves b lm p).length > 0 := List.length_pos.mpr hm
        cases hs : (pyGet b p.1 p.2).side with
        | true =>
          cases bs with
          | true =>
            rw [show stalemate_go b lm (p :: rest) ws true = stalemate_go b lm rest false true by
              simp [stalemate_go, hp, hs, hlen], ih false true (Or.inr rfl)]
            simp [noMovesIn, List.forall_mem_cons, hp, hs, hm]
          | false =>
            rcases h with hw | hb
            · subst hw
              rw [show stalemate_go b lm (p :: rest) true false = false by
                simp [stalemate_go, hp, hs, hlen]]
              simp [noMovesIn, List.forall_mem_cons, hp, hs, hm]
            · exact absurd hb (by simp)
        | false =>
          cases ws with
          | true =>
            rw [show stalemate_go b lm (p :: rest) true bs = stalemate_go b lm rest true false by
              simp [stalemate_go, hp, hs, hlen], ih true false (Or.inl rfl)]
            simp [noMovesIn, List.forall_mem_cons, hp, hs, hm]
          | false =>
            rcases h with hw | hb
            · exact absurd hw (by simp)
            · subst hb
              rw [show stalemate_go b lm (p :: rest) false true = false by
                simp [stalemate_go, hp, hs, hlen]]
              simp [noMovesIn, List.forall_mem_cons, hp, hs, hm]

/-- Frame property of Board.set_input: the board and the turn are never
written, and the result is only written by the resign branch. -/
theorem set_input_frame (m : String) (st : GameState) :
    (set_input m st).2.board = st.board ∧ (set_input m st).2.turn = st.turn ∧
    (pyLower (pyStrip m) ≠ "resign" → (set_input m st).2.result = st.result) := by
  by_cases hres : pyLower (pyStrip m) = "resign"
  · simp [set_input, hres]
  · simp only [set_input, if_neg hres]
    refine ⟨?_, ?_, fun _ => ?_⟩ <;>
      (split <;> first | rfl | (split_ifs <;> rfl))

/-- Board.set_input either returns the state untouched or reports success. -/
theorem set_input_cases (m : String) (st : GameState) :
    (set_input m st).2 = st ∨ (set_input m st).1 = true := by
  by_cases hres : pyLower (pyStrip m) = "resign"
  · exact Or.inr (by simp [set_input, hres])
  · simp only [set_input, if_neg hres]
    split
    · split_ifs <;> first | exact Or.inl rfl | exact Or.inr rfl
    · exact Or.inl rfl

/-- With a result already recorded, Board.move_piece restores the backup and
reports failure, leaving the state exactly as it was. -/
theorem move_piece_terminal (promo : String) (st : GameState) (h : st.result ≠ none) :
    move_piece promo st = (false, st) := by
  unfold move_piece
  split
  · rfl
  · dsimp only
    split
    · rfl
    · split
      · rfl
      · exact absurd (Or.inr h) (by assumption)

/-- With a result already recorded, Board.execute_input leaves the state
unchanged on every path. -/
theorem execute_input_terminal (promo : String) (st : GameState) (h : st.result ≠ none) :
    (execute_input promo st).2 = st := by
  unfold execute_input
  split
  · rfl
  · split_ifs with h1
    · simp [move_piece_terminal promo st h]
    · rfl

/-! Claim theorems. -/

/-- C2: Board.check_king restores every square on its one exit path — for
every board, king square, in-bounds origin and destination, and side, the
board returned by the call equals the board passed in, so the
simulate-then-revert step of the legality filter leaves the whole board equal
to its pre-call value. -/
theorem check_king_restores_board (b : BoardA) (k1 p1 p2 : Int × Int) (side : Bool)
    (h1 : inBp p1) (h2 : inBp p2) :
    (check_king_run b k1 p1 p2 side).2 = b := by
  obtain ⟨h10, h11, h12, h13⟩ := h1
  obtain ⟨h20, h21, h22, h23⟩ := h2
  obtain ⟨a1, e1⟩ : ∃ a, idx p1.1 = some a := ⟨_, idx_pos p1.1 h10 (by omega)⟩
  obtain ⟨c1, e2⟩ : ∃ a, idx p1.2 = some a := ⟨_, idx_pos p1.2 h12 (by omega)⟩
  obtain ⟨a2, e3⟩ : ∃ a, idx p2.1 = some a := ⟨_, idx_pos p2.1 h20 (by omega)⟩
  obtain ⟨c2, e4⟩ : ∃ a, idx p2.2 = some a := ⟨_, idx_pos p2.2 h22 (by omega)⟩
  funext x y
  simp only [check_king_run, update, pyGet, pySet, e1, e2, e3, e4, setF]
  by_cases m2 : x = a2 ∧ y = c2
  · simp [m2.1, m2.2]
  · by_cases m1 : x = a1 ∧ y = c1
    · simp only [m1.1, m1.2, m2, and_self, if_true]
      split_ifs with hb
      · obtain ⟨ha, hc⟩ := hb
        rw [ha, hc]
      · rfl
    · simp [m1, m2]

/-- C2 witness: the restoration theorem applied to the concrete legality
check of the rook move d4-e4 on `bT4`. -/
theorem check_king_restores_board_witness :
    inBp ((3 : Int), (3 : Int)) ∧ inBp ((3 : Int), (4 : Int)) ∧
    (check_king_run bT4 (0, 0) (3, 3) (3, 4) true).2 = bT4 :=
  ⟨by decide, by decide,
    check_king_restores_board bT4 (0, 0) (3, 3) (3, 4) true (by decide) (by decide)⟩

/-- C1: refuted on `bP` (white king e1, pawn e2, knight d3, black rook e8).
fetch_moves for the pawn on e2 returns the diagonal move to d3 even though d3
holds white's own knight, and applying that move with `update` leaves white's
king attacked by the rook on e8 — the pawn diagonal loop keeps exactly the
same-side-occupied squares and never calls the legality filter. -/
theorem pawn_diagonal_captures_own_piece_and_exposes_king :
    ((2 : Int), (3 : Int)) ∈ fetch_moves bP none (1, 4) ∧
    (pyGet bP 2 3).piece ≠ 0 ∧ (pyGet bP 2 3).side = true ∧
    (pyGet bP 1 4).piece = 1 ∧ (pyGet bP 1 4).side = true ∧
    find_king bP true = (0, 4) ∧
    fetch_attackers (update bP (1, 4) (2, 3)) (0, 4) true ≠ [] := by decide

/-- C3: Board.gen_castling_moves returns the empty list on every input —
`rook_legal` compares the tile list itself (not its piece entry) with the int
4, which is always false in Python — so even the castling-ready position
`bCastle` (king e1 and rook h1 unmoved, f1/g1 empty, e1/f1/g1 unattacked)
generates no castling move. -/
theorem gen_castling_moves_always_empty :
    (∀ (b : BoardA) (p1 : Int × Int) (side : Bool), gen_castling_moves b p1 side = []) ∧
    gen_castling_moves bCastle (0, 4) true = [] ∧
    pyGet bCastle 0 4 = ⟨6, 0, true⟩ ∧ pyGet bCastle 0 7 = ⟨4, 0, true⟩ ∧
    (pyGet bCastle 0 5).piece = 0 ∧ (pyGet bCastle 0 6).piece = 0 ∧
    fetch_attackers bCastle (0, 4) true = [] ∧
    fetch_attackers bCastle (0, 5) true = [] ∧
    fetch_attackers bCastle (0, 6) true = [] := by
  refine ⟨fun b p1 side => ?_, by decide, by decide, by decide, by decide,
    by decide, by decide, by decide, by decide⟩
  simp [gen_castling_moves, tileEqInt]

/-- C4: Board.is_threefold always returns None (the comparison's outcome is
bound to a local variable, not `self.result`), so after the successfully
executed rook move of `st4` — whose resulting signature already occurs twice
in `past_states` — `result` is still None even though the repetition count of
the post-move state is 2. -/
theorem is_threefold_returns_none_and_result_unset :
    (∀ st : GameState, is_threefold st = none) ∧
    (move_piece "q" st4).1 = true ∧
    (move_piece "q" st4).2.result = none ∧
    threefold_repetitions ((move_piece "q" st4).2) = 2 :=
  ⟨fun _ => rfl, by decide, by decide, by decide⟩

/-- C9: on `bMate` the white king on a1 is checkmated by the black rook on
h1, yet Board.evaluate short-circuits to positive 100000 (`100000 if tile[2]`
with `tile` the mated king) for every piece-square table — the sign favours
the side that is mated, contradicting the white-positive convention. -/
theorem evaluate_positive_when_white_king_mated :
    (∀ pst : Nat → Nat → Nat → Int, evaluate pst bMate none = 100000) ∧
    is_checkmate bMate none (0, 7) (0, 0) true = true ∧
    pyGet bMate 0 0 = ⟨6, 0, true⟩ ∧ pyGet bMate 0 7 = ⟨4, 0, false⟩ :=
  ⟨fun pst => rfl, by decide, by decide, by decide⟩

/-- C5 (amended): Board.is_stalemate returns True exactly when at least one
of the two colours — independent of the side to move, which the method never
reads — has no legal move over the whole board. -/
theorem is_stalemate_iff_some_side_without_moves (b : BoardA)
    (lm : Option ((Int × Int) × (Int × Int))) :
    is_stalemate b lm = true ↔
      noMovesIn b lm allSquares true ∨ noMovesIn b lm allSquares false := by
  simpa using stalemate_go_spec b lm allSquares true true (Or.inl rfl)

/-- C5 counterexample: on `bC5` (a lone white king, white to move) the side
to move has legal moves from a1, yet is_stalemate reports True because black
has none. -/
theorem is_stalemate_true_while_mover_has_moves :
    is_stalemate bC5 none = true ∧
    fetch_moves bC5 none ((0 : Int), (0 : Int)) ≠ [] ∧
    (pyGet bC5 0 0).piece ≠ 0 ∧ (pyGet bC5 0 0).side = true := by decide

/-- C6 (amended): once `result` is non-None, Board.set_input never changes
the board or the turn, a non-resign token also leaves `result` unchanged, and
Board.execute_input changes none of board, turn, or result. -/
theorem terminal_result_inputs_leave_state (m promo : String) (st : GameState)
    (h : st.result ≠ none) :
    (set_input m st).2.board = st.board ∧ (set_input m st).2.turn = st.turn ∧
    (pyLower (pyStrip m) ≠ "resign" → (set_input m st).2.result = st.result) ∧
    (execute_input promo st).2.board = st.board ∧
    (execute_input promo st).2.turn = st.turn ∧
    (execute_input promo st).2.result = st.result := by
  obtain ⟨f1, f2, f3⟩ := set_input_frame m st
  have he := execute_input_terminal promo st h
  exact ⟨f1, f2, f3, by rw [he], by rw [he], by rw [he]⟩

/-- C6 witness: the terminal-state theorem applied to `stC6` with the move
string e2e4. -/
theorem terminal_result_inputs_leave_state_witness :
    stC6.result ≠ none ∧
    ((set_input "e2e4" stC6).2.board = stC6.board ∧
     (set_input "e2e4" stC6).2.turn = stC6.turn ∧
     (pyLower (pyStrip "e2e4") ≠ "resign" →
       (set_input "e2e4" stC6).2.result = stC6.result) ∧
     (execute_input "q" stC6).2.board = stC6.board ∧
     (execute_input "q" stC6).2.turn = stC6.turn ∧
     (execute_input "q" stC6).2.result = stC6.result) :=
  ⟨by decide, terminal_result_inputs_leave_state "e2e4" "q" stC6 (by decide)⟩

/-- C6 counterexample: with `result` already set in `stC6`, the resign token
is still accepted and overwrites `result` with a resignation message. -/
theorem resign_overwrites_terminal_result :
    (set_input "resign" stC6).1 = true ∧
    (set_input "resign" stC6).2.result ≠ stC6.result := by decide

/-- C7 (amended): a successful Board.set_input is either the resign token or
a 4-character string with valid file letters, digit ranks in 1..8, and an
origin square whose stored side flag equals the side to move (with no result
recorded); a rejected call leaves the whole state unchanged.  The side-flag
test does not require the origin to be occupied: empty squares store side 0,
which equals black. -/
theorem set_input_true_characterization (m : String) (st : GameState) :
    ((set_input m st).1 = true →
      pyLower (pyStrip m) = "resign" ∨
      ∃ c0 c1 c2 c3 : Char, (pyLower (pyStrip m)).toList = [c0, c1, c2, c3] ∧
        (col_dict c0).isSome = true ∧ (col_dict c2).isSome = true ∧
        c1.isDigit = true ∧ c3.isDigit = true ∧
        1 ≤ digitVal c1 ∧ digitVal c1 ≤ 8 ∧ 1 ≤ digitVal c3 ∧ digitVal c3 ≤ 8 ∧
        (pyGet st.board ((digitVal c1 : Int) - 1) ((col_dict c0).getD 0)).side = st.turn ∧
        st.result = none) ∧
    ((set_input m st).1 = false → (set_input m st).2 = st) := by
  constructor
  · intro ht
    by_cases hres : pyLower (pyStrip m) = "resign"
    · exact Or.inl hres
    · refine Or.inr ?_
      simp only [set_input, if_neg hres] at ht
      rcases hl : (pyLower (pyStrip m)).toList with _ | ⟨c0, _ | ⟨c1, _ | ⟨c2, _ | ⟨c3, rest⟩⟩⟩⟩ <;>
        rw [hl] at ht
      · simp at ht
      · simp at ht
      · simp at ht
      · simp at ht
      · dsimp only at ht
        split_ifs at ht with h1 h2 h3
        have hrest : rest = [] := by
          have hlen := h2.1
          simp only [List.length_cons] at hlen
          exact List.eq_nil_of_length_eq_zero (by omega)
        exact ⟨c0, c1, c2, c3, by rw [hrest], h2.2.1, h2.2.2.1, h1.1, h1.2,
          h2.2.2.2.1.1, h2.2.2.2.1.2, h2.2.2.2.2.1, h2.2.2.2.2.2, h3.1, h3.2⟩
  · intro hf
    rcases set_input_cases m st with h2 | h2
    · exact h2
    · rw [hf] at h2
      simp at h2

/-- C7 witness: the characterization applied to the accepted input a1a2 on
`stC7`. -/
theorem set_input_true_characterization_witness :
    (set_input "a1a2" stC7).1 = true ∧
    (pyLower (pyStrip "a1a2") = "resign" ∨
      ∃ c0 c1 c2 c3 : Char, (pyLower (pyStrip "a1a2")).toList = [c0, c1, c2, c3] ∧
        (col_dict c0).isSome = true ∧ (col_dict c2).isSome = true ∧
        c1.isDigit = true ∧ c3.isDigit = true ∧
        1 ≤ digitVal c1 ∧ digitVal c1 ≤ 8 ∧ 1 ≤ digitVal c3 ∧ digitVal c3 ≤ 8 ∧
        (pyGet stC7.board ((digitVal c1 : Int) - 1) ((col_dict c0).getD 0)).side = stC7.turn ∧
        stC7.result = none) :=
  ⟨by decide, (set_input_true_characterization "a1a2" stC7).1 (by decide)⟩

/-- C7 counterexample: with black to move on the empty board `stC7`, the
string a1a2 is accepted although the origin square a1 is empty — the origin
need not be occupied by a piece of the side to move. -/
theorem set_input_accepts_empty_origin_for_black :
    (set_input "a1a2" stC7).1 = true ∧ (pyGet stC7.board 0 0).piece = 0 ∧
    stC7.turn = false := by decide

/-- C8 (amended): gen_passant with no recorded move returns nothing, and a
returned en-passant capture requires: the capturing pawn on row 4 (white) or
row 3 (black), the last recorded move landing adjacent in file, that move
spanning exactly two rows — of any piece of either side, the mover's type and
colour are never examined — and the legality filter passing. -/
theorem gen_passant_requires_two_row_last_move (b : BoardA)
    (lm : (Int × Int) × (Int × Int)) (p1 k1 : Int × Int) (side : Bool)
    (q : Int × Int) :
    gen_passant b none p1 k1 side = [] ∧
    (q ∈ gen_passant b (some lm) p1 k1 side →
      ((side = true ∧ p1.1 = 4) ∨ (side = false ∧ p1.1 = 3)) ∧
      (lm.2.2 - p1.2).natAbs = 1 ∧ (lm.1.1 - lm.2.1).natAbs = 2 ∧
      check_king b k1 p1 q side = false) := by
  refine ⟨rfl, fun hq => ?_⟩
  cases side with
  | false =>
    simp [gen_passant] at hq
    obtain ⟨⟨h1, h3, h4, h5⟩, hq2⟩ := hq
    subst hq2
    exact ⟨Or.inr ⟨rfl, h1⟩, h3, h4, h5⟩
  | true =>
    simp [gen_passant] at hq
    obtain ⟨⟨h1, h3, h4, h5⟩, hq2⟩ := hq
    subst hq2
    exact ⟨Or.inl ⟨rfl, h1⟩, h3, h4, h5⟩

/-- C8 witness: the prerequisite theorem applied to the move returned on
`bEP` after the two-row knight arrival g8-f6. -/
theorem gen_passant_requires_two_row_last_move_witness :
    (((5 : Int), (5 : Int)) ∈ gen_passant bEP (some ((7, 6), (5, 5))) (4, 4) (0, 4) true) ∧
    (((true = true ∧ ((4 : Int), (4 : Int)).1 = 4) ∨
      (true = false ∧ ((4 : Int), (4 : Int)).1 = 3)) ∧
     (((5 : Int) - 4)).natAbs = 1 ∧ (((7 : Int) - 5)).natAbs = 2 ∧
     check_king bEP (0, 4) (4, 4) (5, 5) true = false) :=
  ⟨by decide,
    (gen_passant_requires_two_row_last_move bEP ((7, 6), (5, 5)) (4, 4) (0, 4) true
      (5, 5)).2 (by decide)⟩

/-- C8 counterexample: on `bEP` the last recorded move is the black knight
jump g8-f6 (a two-row move by a non-pawn), yet gen_passant returns the
en-passant capture f6 for the white pawn on e5 — the generator never checks
that the last move was a pawn advance. -/
theorem gen_passant_accepts_knight_last_move :
    gen_passant bEP (some ((7, 6), (5, 5))) (4, 4) (0, 4) true = [(5, 5)] ∧
    (pyGet bEP 5 5).piece = 2 ∧ (pyGet bEP 5 5).piece ≠ 1 := by decide

/-- C10: for black (`piece_side` false) with a recorded last move, every
destination gen_passant returns is the pair `(-1, lastDestCol)` — the Python
conditional makes the whole row the literal -1 — hence lies outside rows
0..7, and it is this row -1 square that the nested check_king call receives
and (through Python's wrapping indexing) reads and writes. -/
theorem gen_passant_black_destination_row_negative (b : BoardA)
    (lm : (Int × Int) × (Int × Int)) (p1 k1 q : Int × Int)
    (hq : q ∈ gen_passant b (some lm) p1 k1 false) :
    q = (-1, lm.2.2) ∧ q.1 = -1 ∧ ¬ (0 ≤ q.1 ∧ q.1 ≤ 7) := by
  simp [gen_passant] at hq
  obtain ⟨-, hq2⟩ := hq
  subst hq2
  exact ⟨rfl, rfl, by omega⟩

/-- C10 witness: the row -1 theorem applied to the move actually returned on
`bEP10` after white's double push f2-f4. -/
theorem gen_passant_black_destination_row_negative_witness :
    (((-1 : Int), (5 : Int)) ∈ gen_passant bEP10 (some ((1, 5), (3, 5))) (3, 4) (7, 0) false) ∧
    ((-1 : Int), (5 : Int)).1 = -1 :=
  ⟨by decide,
    (gen_passant_black_destination_row_negative bEP10 ((1, 5), (3, 5)) (3, 4) (7, 0)
      (-1, 5) (by decide)).2.1⟩

end Atheris
